import Mathlib

/-!
Shallow embedding of `src/http/1.1/strategies/Pipeline.js` from the
uwebsocket-compat-layer repository: the HTTP/1.1 pipelining strategy.

Modelling conventions:
* JS objects become Lean structures; in-place mutation becomes functional
  state update.
* Byte buffers are `List Nat`.
* `process.hrtime` timestamps and the millisecond duration arithmetic are
  abstracted to a `Nat` tick clock passed explicitly to each operation that
  reads the clock; the claims only depend on the duration field becoming
  populated, never on its numeric value.
* JS exceptions (`throw`, and the `TypeError` raised by dereferencing
  `undefined`) are modelled by returning the state mutated so far together
  with `Option JsError` (mutations performed before a JS throw persist).
* Stored callbacks are defunctionalised: each `scheduleSend` call is tagged
  with a caller-chosen `cbId`, and every invocation of a stored callback is
  recorded as an `Event` in an emitted trace, in invocation order.  The
  append of the new record to the queue is likewise recorded as an
  `Event.enqueued` so that the order of the append relative to callback
  invocations is observable.
* The uWebSockets response object (`request.response`, the "active sink")
  is modelled with an explicit acceptance schedule `plan` (how many bytes
  each successive `tryEnd` call accepts) and a log `attempts` of the exact
  chunks passed to `tryEnd`, so that which bytes the relay hands to the
  sink is observable.  The `onWritable` closure is defunctionalised: the
  registration stores the captured data (`drain`), and `fireWritable`
  performs exactly what the closure body in the source does.
-/

namespace UwsCompat

/-- Byte strings, one `Nat` per byte. -/
abbrev Bytes := List Nat

/-- The two error codes the source attaches to thrown `Error`s:
`E_PIPELINE_OVERFLOW` and `E_PIPELINE_ABORTED`. -/
inductive ErrCode
  | overflow
  | aborted
deriving DecidableEq, Repr

/-- A JS exception: either an `Error` carrying a pipeline code, or a
`TypeError` from dereferencing `undefined`. -/
inductive JsError
  | pipelineError (code : ErrCode)
  | typeError (msg : String)
deriving DecidableEq, Repr

/-- Model of a Node `Readable` stream (used for request/response bodies). -/
structure Readable where
  buffered : Bytes := []
  destroyed : Bool := false
  destroyError : Option ErrCode := none
deriving DecidableEq, Repr

/-- `stream.destroy(err?)`. -/
def Readable.destroy (b : Readable) (e : Option ErrCode) : Readable :=
  { b with destroyed := true, destroyError := e }

/-- Model of the uWebSockets response object paired with a request (the
"active sink").  `written` is everything the sink has accepted so far
(`getWriteOffset` is its length); `plan` is the acceptance schedule: the
head of `plan` is how many bytes the next `tryEnd` call accepts (if absent
the sink accepts the whole chunk); `attempts` logs the exact chunk passed
to each `tryEnd` call; `abOffset` and `drain` model the `abOffset` field
and the registered `onWritable` closure (the captured chunk and the
captured `content-length`). -/
structure UwsResponse where
  written : Bytes := []
  plan : List Nat := []
  attempts : List Bytes := []
  abOffset : Nat := 0
  drain : Option (Bytes × Option Nat) := none
deriving DecidableEq, Repr

/-- `uwsResponse.getWriteOffset()`. -/
def UwsResponse.getWriteOffset (u : UwsResponse) : Nat :=
  u.written.length

/-- `uwsResponse.tryEnd(chunk, totalSize)`: attempts to write `chunk`;
returns `(ok, done, sink')` where `ok` is whether the whole chunk was
accepted and `done` whether the declared total length has been reached. -/
def UwsResponse.tryEnd (u : UwsResponse) (chunk : Bytes) (totalSize : Option Nat) :
    Bool × Bool × UwsResponse :=
  let n := min (u.plan.headD chunk.length) chunk.length
  let u' : UwsResponse :=
    { u with
      written := u.written ++ chunk.take n
      plan := u.plan.tail
      attempts := u.attempts ++ [chunk] }
  let ok := n == chunk.length
  let done :=
    match totalSize with
    | some t => decide (t ≤ u'.written.length)
    | none => false
  (ok, done, u')

/-- The outgoing request handed to `scheduleSend`.  `response` is the
duck-typed paired uWS response object (active sink) when present; `body`
is the request's own outgoing body stream when present. -/
structure Request where
  response : Option UwsResponse := none
  body : Option Readable := none
deriving DecidableEq, Repr

/-- `response.metadata` of an in-flight record. -/
structure Metadata where
  startTime : Nat
  bytes : Nat := 0
  headersTime : Option Nat := none
  duration : Option Nat := none
deriving DecidableEq, Repr

/-- The `response` object built by `scheduleSend`.  `body` is `Option`
because the `body: new Readable({...})` initialiser is commented out in the
source: `scheduleSend` leaves it absent (`none`). -/
structure Response where
  request : Request
  body : Option Readable := none
  headers : List (String × String) := []
  statusCode : Option Int := none
  statusMessage : String := ""
  metadata : Metadata
deriving DecidableEq, Repr

/-- One entry of `_pendingRequests`: the response-in-progress plus the
stored completion callback (defunctionalised to its id). -/
structure PipelinedRequest where
  response : Response
  cbId : Nat
deriving DecidableEq, Repr

/-- Trace events: each constructor marks either the queue append inside
`scheduleSend` or one invocation of a caller-supplied callback. -/
inductive Event
  | enqueued (cbId : Nat)
  | onAccepted (cbId : Nat)
  | completion (cbId : Nat) (err : Option ErrCode)
  | destroyedRequestBody (cbId : Nat)
deriving DecidableEq, Repr

/-- Is this event a completion-callback invocation? -/
def Event.isCompletion : Event → Bool
  | .completion _ _ => true
  | _ => false

/-- Is this event an invocation of the acknowledgement callback? -/
def Event.isOnAccepted : Event → Bool
  | .onAccepted _ => true
  | _ => false

/-- The pipeline state: `_pendingRequests` and `_maxRequests`.  The parser
is an external collaborator; its two events are modelled by the handler
functions `onHeadersEvent` and `onBodyChunkEvent` below. -/
structure Pipeline where
  pendingRequests : List PipelinedRequest := []
  maxRequests : Int := 1000
deriving DecidableEq, Repr

/-- A pipeline as built by `new Pipeline(parser)` with default options. -/
def pipeline0 : Pipeline := {}

/-- `acceptsMoreRequests()`. -/
def acceptsMoreRequests (p : Pipeline) : Bool :=
  p.maxRequests == 0 || decide ((p.pendingRequests.length : Int) < p.maxRequests)

/-- The record literal `scheduleSend` builds: zeroed byte counter, current
timestamp, no status, empty headers and — because the `body` initialiser
is commented out in the source — no response body stream. -/
def mkPipelinedRequest (request : Request) (cbId now : Nat) : PipelinedRequest :=
  { response :=
      { request := request
        body := none
        headers := []
        statusCode := none
        statusMessage := ""
        metadata := { startTime := now, bytes := 0 } }
    cbId := cbId }

/-- `scheduleSend(request, responseCallback, callback)`: synchronous
overflow rejection, otherwise append the new record and invoke the
acknowledgement callback. -/
def scheduleSend (p : Pipeline) (request : Request) (cbId now : Nat) :
    Except JsError (Pipeline × List Event) :=
  if 0 < p.maxRequests ∧ p.maxRequests ≤ (p.pendingRequests.length : Int) then
    .error (.pipelineError .overflow)
  else
    .ok ({ p with pendingRequests := p.pendingRequests ++ [mkPipelinedRequest request cbId now] },
         [.enqueued cbId, .onAccepted cbId])

/-- The pipeline state after `scheduleSend` returns or throws (a JS throw
leaves the object untouched, since it happens before any mutation). -/
def scheduleSendState (p : Pipeline) (request : Request) (cbId now : Nat) : Pipeline :=
  match scheduleSend p request cbId now with
  | .error _ => p
  | .ok (p', _) => p'

/-- The callback-invocation trace of one `scheduleSend` call. -/
def scheduleSendEvents (p : Pipeline) (request : Request) (cbId now : Nat) : List Event :=
  match scheduleSend p request cbId now with
  | .error _ => []
  | .ok (_, evs) => evs

/-- `peek()`: the first-in request, or `undefined`. -/
def peek (p : Pipeline) : Option PipelinedRequest :=
  p.pendingRequests.head?

/-- `size()`. -/
def size (p : Pipeline) : Nat :=
  p.pendingRequests.length

/-- `toArray()`. -/
def toArray (p : Pipeline) : List PipelinedRequest :=
  p.pendingRequests

/-- `headers['content-length']`, coerced to a number as uWS would. -/
def contentLength (hs : List (String × String)) : Option Nat :=
  (hs.lookup "content-length").bind String.toNat?

/-- `addByteCount(count)`.  The source reads `this.peek().response.metadata`
BEFORE its `if` guard, so with an empty queue `peek()` is `undefined` and
the dereference throws a `TypeError`. -/
def addByteCount (p : Pipeline) (count : Nat) : Pipeline × Option JsError :=
  match p.pendingRequests with
  | [] => (p, some (.typeError "peek() is undefined: cannot read response"))
  | r :: rest =>
      ({ p with pendingRequests :=
          { r with response.metadata.bytes := r.response.metadata.bytes + count } :: rest },
       none)

/-- `addBody(data)`.  Dereferences `this.peek().response` before the guard
(`TypeError` on empty queue), adds the byte count, then relays the chunk:
to the paired uWS response via `cork`/`tryEnd` when the request carries
one (saving `abOffset` and registering the drain closure on a partial,
non-final write), otherwise to `response.body` — which the source never
creates, so that branch throws a `TypeError` (after the byte counter was
already bumped). -/
def addBody (p : Pipeline) (data : Bytes) : Pipeline × Option JsError :=
  match p.pendingRequests with
  | [] => (p, some (.typeError "peek() is undefined: cannot read response"))
  | r :: rest =>
      let r1 : PipelinedRequest :=
        { r with response.metadata.bytes := r.response.metadata.bytes + data.length }
      match r1.response.request.response with
      | some uws =>
          let lastOffset := uws.getWriteOffset
          let (ok, done, uws1) := uws.tryEnd data (contentLength r1.response.headers)
          let uws2 :=
            if done then uws1
            else if !ok then
              { uws1 with
                abOffset := lastOffset
                drain := some (data, contentLength r1.response.headers) }
            else uws1
          ({ p with pendingRequests :=
              { r1 with response.request.response := some uws2 } :: rest },
           none)
      | none =>
          match r1.response.body with
          | none =>
              ({ p with pendingRequests := r1 :: rest },
               some (.typeError "response.body is undefined: cannot read push"))
          | some b =>
              ({ p with pendingRequests :=
                  { r1 with response.body := some { b with buffered := b.buffered ++ data } } :: rest },
               none)

/-- What the drain closure registered by `addBody` does when the sink
reports writability at `offset`: retry `data.subarray(offset - abOffset)`
via `tryEnd` and return its `ok`.  `none` when no drain is registered. -/
def fireWritable (u : UwsResponse) (offset : Nat) : Option (Bool × UwsResponse) :=
  match u.drain with
  | none => none
  | some (data, clen) =>
      let (ok, _done, u') := u.tryEnd (data.drop (offset - u.abOffset)) clen
      some (ok, u')

/-- `setStatus(statusCode, statusMessage)`: guarded head mutation. -/
def setStatus (p : Pipeline) (statusCode : Int) (statusMessage : String) : Pipeline :=
  match p.pendingRequests with
  | [] => p
  | r :: rest =>
      { p with pendingRequests :=
          { r with
            response.statusCode := some statusCode
            response.statusMessage := statusMessage } :: rest }

/-- `setHeaders(headers)`: guarded head mutation; stamps `headersTime`.
The completion-callback invocation that once lived here is commented out
in the source, so no event is emitted. -/
def setHeaders (p : Pipeline) (hs : List (String × String)) (now : Nat) : Pipeline :=
  match p.pendingRequests with
  | [] => p
  | r :: rest =>
      { p with pendingRequests :=
          { r with
            response.headers := hs
            response.metadata.headersTime := some now } :: rest }

/-- `terminateRequest()`: shift the head record, stamp its duration and
return it.  The source invokes no stored callback here. -/
def terminateRequest (p : Pipeline) (now : Nat) : Pipeline × Option PipelinedRequest :=
  match p.pendingRequests with
  | [] => (p, none)
  | r :: rest =>
      ({ p with pendingRequests := rest },
       some { r with response.metadata.duration := some (now - r.response.metadata.startTime) })

/-- The `headers` handler wired in the constructor: `setStatus`, then
`setHeaders`, then `terminateRequest` when `parser.expectedBodySize === 0`.
No stored callback is invoked on this path, hence the empty trace. -/
def onHeadersEvent (p : Pipeline) (statusCode : Int) (statusMessage : String)
    (hs : List (String × String)) (expectedBodySize now : Nat) :
    Pipeline × Option PipelinedRequest × List Event :=
  let p1 := setStatus p statusCode statusMessage
  let p2 := setHeaders p1 hs now
  if expectedBodySize == 0 then
    let (p3, r) := terminateRequest p2 now
    (p3, r, [])
  else
    (p2, none, [])

/-- The deferred body of the `body_chunk` handler wired in the
constructor: `addBody(chunk)` then `terminateRequest()` when `isLast`. -/
def onBodyChunkEvent (p : Pipeline) (chunk : Bytes) (isLast : Bool) (now : Nat) :
    Pipeline × Option PipelinedRequest × Option JsError :=
  match addBody p chunk with
  | (p', some e) => (p', none, some e)
  | (p', none) =>
      if isLast then
        let (p'', r) := terminateRequest p' now
        (p'', r, none)
      else
        (p', none, none)

/-- The `forEach` body of `close()`: invoke the completion callback with
the ABORTED error, then `response.body.destroy(err)` — which throws a
`TypeError` when `body` is absent (it always is, since its creation is
commented out in `scheduleSend`), stopping the iteration there — then
destroy the request's own body stream when present.  Returns the records
as mutated so far, the callback trace, and the exception if one was
thrown. -/
def closeLoop : List PipelinedRequest → List PipelinedRequest × List Event × Option JsError
  | [] => ([], [], none)
  | r :: rest =>
      let ev := Event.completion r.cbId (some .aborted)
      match r.response.body with
      | none =>
          (r :: rest, [ev], some (.typeError "response.body is undefined: cannot read destroy"))
      | some b =>
          let b' := b.destroy (some .aborted)
          let (r', evs1) :=
            match r.response.request.body with
            | some rb =>
                (({ r with
                    response.body := some b'
                    response.request.body := some (rb.destroy none) } : PipelinedRequest),
                 [ev, Event.destroyedRequestBody r.cbId])
            | none =>
                (({ r with response.body := some b' } : PipelinedRequest), [ev])
          let (rest', evs2, e) := closeLoop rest
          (r' :: rest', evs1 ++ evs2, e)

/-- `close()`: run the `forEach`; only when it completes without throwing
does the final `this._pendingRequests = []` assignment execute. -/
def close (p : Pipeline) : Pipeline × List Event × Option JsError :=
  let (q', evs, e) := closeLoop p.pendingRequests
  match e with
  | some err => ({ p with pendingRequests := q' }, evs, some err)
  | none => ({ p with pendingRequests := [] }, evs, none)

/-- Byte counter of the head record (`0` when the queue is empty); used to
state the byte-accounting property. -/
def headBytes (p : Pipeline) : Nat :=
  match p.pendingRequests with
  | [] => 0
  | r :: _ => r.response.metadata.bytes

/-- Deliver a list of body chunks through `addBody`, stopping at the first
JS exception. -/
def processChunks : Pipeline → List Bytes → Pipeline × Option JsError
  | p, [] => (p, none)
  | p, c :: cs =>
      match addBody p c with
      | (p', none) => processChunks p' cs
      | (p', some e) => (p', some e)

/-- Deliver a list of byte counts through `addByteCount`, stopping at the
first JS exception. -/
def processCounts : Pipeline → List Nat → Pipeline × Option JsError
  | p, [] => (p, none)
  | p, c :: cs =>
      match addByteCount p c with
      | (p', none) => processCounts p' cs
      | (p', some e) => (p', some e)

/-- Repeatedly `terminateRequest`, collecting the dequeued records in
dequeue order (stops early on an empty queue). -/
def drainAll : Pipeline → Nat → Nat → Pipeline × List PipelinedRequest
  | p, 0, _ => (p, [])
  | p, Nat.succ k, now =>
      match terminateRequest p now with
      | (p1, none) => (p1, [])
      | (p1, some r) =>
          let (p2, rs) := drainAll p1 k now
          (p2, r :: rs)

/-! ### Scenario values used by the concrete (closed) theorems -/

/-- One record enqueued (callback id 7) and then resolved by a `headers`
event whose `expectedBodySize` is `0`: the normal-termination path. -/
def normalScenario : Pipeline × Option PipelinedRequest × List Event :=
  let p1 := scheduleSendState pipeline0 {} 7 5
  let evs1 := scheduleSendEvents pipeline0 {} 7 5
  let (p2, r, evs2) := onHeadersEvent p1 200 "" [] 0 9
  (p2, r, evs1 ++ evs2)

/-- Two records enqueued (callback ids 0 and 1). -/
def twoQueued : Pipeline :=
  scheduleSendState (scheduleSendState pipeline0 {} 0 3) {} 1 4

/-- A queue holding one record, with `maxRequests = 1`: the pipeline is
full. -/
def fullOne : Pipeline :=
  { pendingRequests := [mkPipelinedRequest {} 0 0], maxRequests := 1 }

/-- A pipeline configured with a negative maximum. -/
def negMax : Pipeline := { maxRequests := -1 }

/-! ### More scenario values -/

/-- A fresh record whose request carries a paired uWS response (active
sink) that accepts everything. -/
def activeOne : Pipeline :=
  { pendingRequests := [mkPipelinedRequest { response := some {} } 0 0] }

/-- An active sink that will accept only 2 bytes of the next `tryEnd`. -/
def sinkHalf : UwsResponse := { plan := [2] }

/-- A fresh record whose paired sink accepts only half of the first
chunk. -/
def activeHalfOne : Pipeline :=
  { pendingRequests := [mkPipelinedRequest { response := some sinkHalf } 0 0] }

/-- A sink on which `addBody` has registered the drain callback for the
chunk `[10, 20, 30, 40]` at saved offset `0`. -/
def sinkDrained : UwsResponse := { abOffset := 0, drain := some ([10, 20, 30, 40], none) }

/-! ### Helper lemmas -/

/-- Each step of `drainAll` removes the head, so the dequeued records carry
the callback ids of the queue's prefix, in enqueue order. -/
theorem drainAll_cbIds (k : Nat) : ∀ (p : Pipeline) (now : Nat),
    (drainAll p k now).2.map PipelinedRequest.cbId =
      (p.pendingRequests.take k).map PipelinedRequest.cbId := by
  induction k with
  | zero => intro p now; simp [drainAll]
  | succ k ih =>
      intro p now
      cases hq : p.pendingRequests with
      | nil => simp [drainAll, terminateRequest, hq]
      | cons r rest => simp [drainAll, terminateRequest, hq, ih]

/-- A successful `addBody` grows the head record's byte counter by the
chunk's length. -/
theorem addBody_ok_headBytes (p q : Pipeline) (d : Bytes) (h : addBody p d = (q, none)) :
    headBytes q = headBytes p + d.length := by
  cases hq : p.pendingRequests with
  | nil => simp [addBody, hq] at h
  | cons r rest =>
      cases hu : r.response.request.response with
      | some uws =>
          simp only [addBody, hq, hu, UwsResponse.tryEnd, Prod.mk.injEq, and_true] at h
          rw [← h]
          simp [headBytes, hq]
      | none =>
          cases hb : r.response.body with
          | none => simp [addBody, hq, hu, hb] at h
          | some b =>
              simp only [addBody, hq, hu, hb, Prod.mk.injEq, and_true] at h
              rw [← h]
              simp [headBytes, hq]

/-- A successful `addByteCount` grows the head record's byte counter. -/
theorem addByteCount_ok_headBytes (p q : Pipeline) (n : Nat)
    (h : addByteCount p n = (q, none)) :
    headBytes q = headBytes p + n := by
  cases hq : p.pendingRequests with
  | nil => simp [addByteCount, hq] at h
  | cons r rest =>
      simp only [addByteCount, hq, Prod.mk.injEq, and_true] at h
      rw [← h]
      simp [headBytes, hq]

/-- Folding `addBody` over a chunk list adds the sum of the lengths. -/
theorem processChunks_headBytes : ∀ (cs : List Bytes) (p p' : Pipeline),
    processChunks p cs = (p', none) →
    headBytes p' = headBytes p + (cs.map List.length).sum := by
  intro cs
  induction cs with
  | nil =>
      intro p p' h
      simp only [processChunks, Prod.mk.injEq, and_true] at h
      simp [h]
  | cons c cs ih =>
      intro p p' h
      rcases hstep : addBody p c with ⟨q, oe⟩
      cases oe with
      | some e => simp [processChunks, hstep] at h
      | none =>
          simp only [processChunks, hstep] at h
          have hrec := ih q p' h
          rw [hrec, addBody_ok_headBytes p q c hstep]
          simp [List.sum_cons]
          omega

/-- Folding `addByteCount` over a count list adds the sum. -/
theorem processCounts_headBytes : ∀ (ns : List Nat) (p p' : Pipeline),
    processCounts p ns = (p', none) →
    headBytes p' = headBytes p + ns.sum := by
  intro ns
  induction ns with
  | nil =>
      intro p p' h
      simp only [processCounts, Prod.mk.injEq, and_true] at h
      simp [h]
  | cons n ns ih =>
      intro p p' h
      rcases hstep : addByteCount p n with ⟨q, oe⟩
      cases oe with
      | some e => simp [processCounts, hstep] at h
      | none =>
          simp only [processCounts, hstep] at h
          have hrec := ih q p' h
          rw [hrec, addByteCount_ok_headBytes p q n hstep]
          simp [List.sum_cons]
          omega

/-- C1 (code_bug evidence): on the normal-termination path the head record
is dequeued (size reaches 0, the record is returned with its duration
stamped) yet the completion callback is never invoked — the source's only
invocation site for the stored callback on this path is commented out, so
the whole trace of the scenario contains no completion event.  The claim's
"exactly one terminal callback invocation … with a populated response when
the record is resolved by normal termination" fails. -/
theorem c1_normal_termination_never_invokes_callback :
    size normalScenario.1 = 0 ∧
    (normalScenario.2.1.map fun r => r.response.metadata.duration.isSome) = some true ∧
    normalScenario.2.2.countP Event.isCompletion = 0 := by
  decide

/-- C2 (code_bug evidence): with two records queued, `close()` invokes only
the FIRST record's completion callback, then throws a `TypeError` when it
dereferences `response.body` (whose creation is commented out in
`scheduleSend`), so the second record gets no callback, no body stream is
destroyed, the queue is never cleared and `size()` stays 2. -/
theorem c2_close_throws_before_completing_all :
    (close twoQueued).2.1 = [Event.completion 0 (some .aborted)] ∧
    (close twoQueued).2.2 =
      some (.typeError "response.body is undefined: cannot read destroy") ∧
    size (close twoQueued).1 = 2 := by
  decide

/-- C5 (code_bug evidence): with an empty queue, a `headers` event is
indeed a silent no-op (`setStatus`/`setHeaders`/`terminateRequest` all
guard correctly), but a `body_chunk` event throws: `addBody` and
`addByteCount` dereference `this.peek().response` BEFORE their guard, and
`peek()` is `undefined`.  The claim's "every parser event … is a silent
no-op" fails for `body_chunk`. -/
theorem c5_body_chunk_on_empty_queue_throws :
    onHeadersEvent pipeline0 200 "" [] 0 9 = (pipeline0, none, []) ∧
    onHeadersEvent pipeline0 404 "" [("a", "b")] 3 9 = (pipeline0, none, []) ∧
    (addBody pipeline0 [1, 2, 3]).2 =
      some (.typeError "peek() is undefined: cannot read response") ∧
    (onBodyChunkEvent pipeline0 [1, 2, 3] false 9).2.2 =
      some (.typeError "peek() is undefined: cannot read response") ∧
    (addByteCount pipeline0 3).2 =
      some (.typeError "peek() is undefined: cannot read response") := by
  decide

/-- C10 (counterexample): with `maxRequests = -1` and an empty queue,
`acceptsMoreRequests()` returns `false`, yet `scheduleSend` does not fail
with OVERFLOW — it appends the record and invokes the callbacks — so the
claimed equivalence between the advisory gate and the enforced gate fails
for non-positive `maxRequests`. -/
theorem c10_counterexample :
    acceptsMoreRequests negMax = false ∧
    scheduleSendState negMax {} 0 0 =
      { pendingRequests := [mkPipelinedRequest {} 0 0], maxRequests := -1 } ∧
    scheduleSendEvents negMax {} 0 0 = [.enqueued 0, .onAccepted 0] ∧
    (scheduleSend negMax {} 0 0).isOk = true := by
  decide

/-- C3: FIFO head-of-line ordering as an invariant of every operation: a
successful `scheduleSend` appends the new record at the tail; a
`terminateRequest` removes exactly the head; each parser-event mutation
(`setStatus`, `setHeaders`, `addByteCount`, `addBody`) leaves the tail of
the queue untouched and the length unchanged (it touches at most the head
record); consequently repeatedly dequeuing yields the records in exactly
enqueue order (`drainAll` returns the queue's prefix, by callback id). -/
theorem c3_fifo_head_of_line :
    (∀ (p : Pipeline) (rq : Request) (cb now : Nat) (p' : Pipeline) (evs : List Event),
        scheduleSend p rq cb now = .ok (p', evs) →
        p'.pendingRequests = p.pendingRequests ++ [mkPipelinedRequest rq cb now]) ∧
    (∀ (p : Pipeline) (now : Nat),
        (terminateRequest p now).1.pendingRequests = p.pendingRequests.tail) ∧
    (∀ (p : Pipeline) (c : Int) (m : String),
        (setStatus p c m).pendingRequests.tail = p.pendingRequests.tail ∧
        (setStatus p c m).pendingRequests.length = p.pendingRequests.length) ∧
    (∀ (p : Pipeline) (hs : List (String × String)) (now : Nat),
        (setHeaders p hs now).pendingRequests.tail = p.pendingRequests.tail ∧
        (setHeaders p hs now).pendingRequests.length = p.pendingRequests.length) ∧
    (∀ (p : Pipeline) (n : Nat),
        (addByteCount p n).1.pendingRequests.tail = p.pendingRequests.tail ∧
        (addByteCount p n).1.pendingRequests.length = p.pendingRequests.length) ∧
    (∀ (p : Pipeline) (d : Bytes),
        (addBody p d).1.pendingRequests.tail = p.pendingRequests.tail ∧
        (addBody p d).1.pendingRequests.length = p.pendingRequests.length) ∧
    (∀ (p : Pipeline) (k now : Nat),
        (drainAll p k now).2.map PipelinedRequest.cbId =
          (p.pendingRequests.take k).map PipelinedRequest.cbId) := by
  refine ⟨?_, ?_, ?_, ?_, ?_, ?_, ?_⟩
  · intro p rq cb now p' evs h
    unfold scheduleSend at h
    split at h
    · exact absurd h (by simp)
    · simp only [Except.ok.injEq, Prod.mk.injEq] at h
      rw [← h.1]
  · intro p now
    cases hq : p.pendingRequests <;> simp [terminateRequest, hq]
  · intro p c m
    cases hq : p.pendingRequests <;> simp [setStatus, hq]
  · intro p hs now
    cases hq : p.pendingRequests <;> simp [setHeaders, hq]
  · intro p n
    cases hq : p.pendingRequests <;> simp [addByteCount, hq]
  · intro p d
    cases hq : p.pendingRequests with
    | nil => simp [addBody, hq]
    | cons r rest =>
        cases hu : r.response.request.response with
        | some uws => simp [addBody, hq, hu, UwsResponse.tryEnd]
        | none => cases hb : r.response.body <;> simp [addBody, hq, hu, hb]
  · exact fun p k now => drainAll_cbIds k p now

/-- C3 witness: appending to the empty default pipeline puts the new
record at the tail. -/
theorem c3_witness :
    ({ pendingRequests := [mkPipelinedRequest {} 3 4] } : Pipeline).pendingRequests =
      pipeline0.pendingRequests ++ [mkPipelinedRequest {} 3 4] :=
  c3_fifo_head_of_line.1 pipeline0 {} 3 4
    { pendingRequests := [mkPipelinedRequest {} 3 4] } [.enqueued 3, .onAccepted 3] rfl

/-- C4: when a positive maximum is configured and the queue has reached
it, `scheduleSend` fails synchronously with the OVERFLOW condition: the
state is unchanged (`size()` included) and no callback is invoked. -/
theorem c4_overflow_synchronous_rejection (p : Pipeline) (rq : Request) (cb now : Nat)
    (hpos : 0 < p.maxRequests)
    (hfull : p.maxRequests ≤ (p.pendingRequests.length : Int)) :
    scheduleSend p rq cb now = .error (.pipelineError .overflow) ∧
    scheduleSendState p rq cb now = p ∧
    scheduleSendEvents p rq cb now = [] ∧
    size (scheduleSendState p rq cb now) = size p := by
  have hc : 0 < p.maxRequests ∧ p.maxRequests ≤ (p.pendingRequests.length : Int) :=
    ⟨hpos, hfull⟩
  simp only [scheduleSend, scheduleSendState, scheduleSendEvents, size, if_pos hc]
  simp

/-- C4 witness: a full pipeline (`maxRequests = 1`, one queued record)
rejects the next `scheduleSend`. -/
theorem c4_witness :
    scheduleSend fullOne {} 9 9 = .error (.pipelineError .overflow) ∧
    scheduleSendState fullOne {} 9 9 = fullOne ∧
    scheduleSendEvents fullOne {} 9 9 = [] ∧
    size (scheduleSendState fullOne {} 9 9) = size fullOne :=
  c4_overflow_synchronous_rejection fullOne {} 9 9 (by decide) (by decide)

/-- C6: a `headers` event with `expectedBodySize = 0` on a non-empty queue
sets the head record's status, status message and headers, then terminates
it at once: the head is removed (size decreases by one) and its duration
metadata is populated. -/
theorem c6_zero_body_headers_terminates (p : Pipeline) (r : PipelinedRequest)
    (rest : List PipelinedRequest) (code : Int) (msg : String)
    (hs : List (String × String)) (now : Nat)
    (hq : p.pendingRequests = r :: rest) :
    onHeadersEvent p code msg hs 0 now =
      ({ p with pendingRequests := rest },
       some { r with
              response.statusCode := some code
              response.statusMessage := msg
              response.headers := hs
              response.metadata.headersTime := some now
              response.metadata.duration := some (now - r.response.metadata.startTime) },
       []) ∧
    size (onHeadersEvent p code msg hs 0 now).1 + 1 = size p ∧
    ((onHeadersEvent p code msg hs 0 now).2.1.map fun x => x.response.metadata.duration.isSome) =
      some true := by
  obtain ⟨pr, mx⟩ := p
  have hq' : pr = r :: rest := hq
  subst hq'
  exact ⟨rfl, rfl, rfl⟩

/-- C6 witness: the full pipeline scenario with one queued record. -/
theorem c6_witness :
    onHeadersEvent fullOne 200 "" [] 0 9 =
      ({ fullOne with pendingRequests := [] },
       some { (mkPipelinedRequest {} 0 0) with
              response.statusCode := some 200
              response.statusMessage := ""
              response.headers := []
              response.metadata.headersTime := some 9
              response.metadata.duration :=
                some (9 - (mkPipelinedRequest {} 0 0).response.metadata.startTime) },
       []) ∧
    size (onHeadersEvent fullOne 200 "" [] 0 9).1 + 1 = size fullOne ∧
    ((onHeadersEvent fullOne 200 "" [] 0 9).2.1.map
        fun x => x.response.metadata.duration.isSome) = some true :=
  c6_zero_body_headers_terminates fullOne (mkPipelinedRequest {} 0 0) [] 200 "" [] 9 rfl

/-- C7: the try-write-then-drain protocol of the active-sink relay.  When
the first `tryEnd` of a chunk is neither `done` nor fully accepted
(`ok = false`), `addBody` saves the offset at which writing began in
`abOffset` and registers the drain callback, capturing the chunk.  When
the sink later reports writability at offset `o`, the registered callback
retries with exactly the chunk's bytes from index `o - abOffset` onward —
the retried suffix together with the already-accepted prefix reassembles
the chunk, so no accepted byte is re-sent and no byte is dropped — and it
returns precisely whether the retry was fully accepted by the sink. -/
theorem c7_partial_write_drain_retry :
    (∀ (p : Pipeline) (r : PipelinedRequest) (rest : List PipelinedRequest)
        (uws : UwsResponse) (data : Bytes),
        p.pendingRequests = r :: rest →
        r.response.request.response = some uws →
        (uws.tryEnd data (contentLength r.response.headers)).2.1 = false →
        (uws.tryEnd data (contentLength r.response.headers)).1 = false →
        ∃ uws2,
          ((addBody p data).1.pendingRequests.head?.bind
              fun x => x.response.request.response) = some uws2 ∧
          (addBody p data).2 = none ∧
          uws2.abOffset = uws.getWriteOffset ∧
          uws2.drain = some (data, contentLength r.response.headers)) ∧
    (∀ (u : UwsResponse) (data : Bytes) (clen : Option Nat) (offset : Nat),
        u.drain = some (data, clen) →
        u.abOffset ≤ offset →
        offset - u.abOffset ≤ data.length →
        ∃ ok u',
          fireWritable u offset = some (ok, u') ∧
          u'.attempts = u.attempts ++ [data.drop (offset - u.abOffset)] ∧
          data.take (offset - u.abOffset) ++ data.drop (offset - u.abOffset) = data ∧
          (ok = true ↔
            u'.written.length = u.written.length + (data.length - (offset - u.abOffset)))) := by
  constructor
  · intro p r rest uws data hq hu hdone hok
    obtain ⟨pr, mx⟩ := p
    have hq' : pr = r :: rest := hq
    subst hq'
    rcases htE : uws.tryEnd data (contentLength r.response.headers) with ⟨ok0, done0, uws1⟩
    rw [htE] at hdone hok
    simp only at hdone hok
    subst hdone
    subst hok
    refine ⟨{ uws1 with
                abOffset := uws.getWriteOffset
                drain := some (data, contentLength r.response.headers) },
            ?_, ?_, rfl, rfl⟩
    · simp [addBody, hu, htE]
    · simp [addBody, hu, htE]
  · intro u data clen offset hdrain hle hlen
    refine ⟨(u.tryEnd (data.drop (offset - u.abOffset)) clen).1,
            (u.tryEnd (data.drop (offset - u.abOffset)) clen).2.2, ?_, ?_, ?_, ?_⟩
    · simp [fireWritable, hdrain, UwsResponse.tryEnd]
    · simp [UwsResponse.tryEnd]
    · exact List.take_append_drop _ _
    · simp only [UwsResponse.tryEnd, beq_iff_eq, List.length_append, List.length_take,
        List.length_drop]
      omega

/-- C7 witness: a sink that accepts only 2 of 4 bytes triggers the drain
registration at saved offset 0; a writability notification at offset 2
retries exactly the last 2 bytes and reports full acceptance. -/
theorem c7_witness :
    (∃ uws2,
        ((addBody activeHalfOne [1, 2, 3, 4]).1.pendingRequests.head?.bind
            fun x => x.response.request.response) = some uws2 ∧
        (addBody activeHalfOne [1, 2, 3, 4]).2 = none ∧
        uws2.abOffset = sinkHalf.getWriteOffset ∧
        uws2.drain = some ([1, 2, 3, 4], none)) ∧
    (∃ ok u',
        fireWritable sinkDrained 2 = some (ok, u') ∧
        u'.attempts = sinkDrained.attempts ++ [[10, 20, 30, 40].drop 2] ∧
        [10, 20, 30, 40].take 2 ++ [10, 20, 30, 40].drop 2 = [10, 20, 30, 40] ∧
        (ok = true ↔ u'.written.length = sinkDrained.written.length + (4 - 2))) :=
  ⟨c7_partial_write_drain_retry.1 activeHalfOne (mkPipelinedRequest { response := some sinkHalf } 0 0)
      [] sinkHalf [1, 2, 3, 4] rfl rfl (by decide) (by decide),
   c7_partial_write_drain_retry.2 sinkDrained [10, 20, 30, 40] none 2 rfl (by decide) (by decide)⟩

/-- C8: a non-overflowing `scheduleSend` appends a fresh record (zero byte
counter, current enqueue timestamp) at the tail of the queue, and only
then invokes the acknowledgement callback, exactly once: the emitted
trace is precisely the append event followed by the single `onAccepted`
invocation, and `size()` grows by exactly one. -/
theorem c8_admission_effect (p : Pipeline) (rq : Request) (cb now : Nat)
    (h : ¬(0 < p.maxRequests ∧ p.maxRequests ≤ (p.pendingRequests.length : Int))) :
    scheduleSend p rq cb now =
      .ok ({ p with pendingRequests := p.pendingRequests ++ [mkPipelinedRequest rq cb now] },
           [.enqueued cb, .onAccepted cb]) ∧
    scheduleSendState p rq cb now =
      { p with pendingRequests := p.pendingRequests ++ [mkPipelinedRequest rq cb now] } ∧
    scheduleSendEvents p rq cb now = [.enqueued cb, .onAccepted cb] ∧
    (scheduleSendEvents p rq cb now).countP Event.isOnAccepted = 1 ∧
    size (scheduleSendState p rq cb now) = size p + 1 ∧
    (mkPipelinedRequest rq cb now).response.metadata.bytes = 0 ∧
    (mkPipelinedRequest rq cb now).response.metadata.startTime = now := by
  simp only [scheduleSend, scheduleSendState, scheduleSendEvents, size, if_neg h]
  simp [Event.isOnAccepted, mkPipelinedRequest, List.countP_cons]

/-- C8 witness: scheduling onto the empty default pipeline. -/
theorem c8_witness :
    scheduleSend pipeline0 {} 4 6 =
      .ok ({ pipeline0 with
             pendingRequests := pipeline0.pendingRequests ++ [mkPipelinedRequest {} 4 6] },
           [.enqueued 4, .onAccepted 4]) ∧
    scheduleSendState pipeline0 {} 4 6 =
      { pipeline0 with
        pendingRequests := pipeline0.pendingRequests ++ [mkPipelinedRequest {} 4 6] } ∧
    scheduleSendEvents pipeline0 {} 4 6 = [.enqueued 4, .onAccepted 4] ∧
    (scheduleSendEvents pipeline0 {} 4 6).countP Event.isOnAccepted = 1 ∧
    size (scheduleSendState pipeline0 {} 4 6) = size pipeline0 + 1 ∧
    (mkPipelinedRequest {} 4 6).response.metadata.bytes = 0 ∧
    (mkPipelinedRequest {} 4 6).response.metadata.startTime = 6 :=
  c8_admission_effect pipeline0 {} 4 6 (by decide)

/-- C9: byte accounting.  Over any run of `addBody` calls that completes
without a JS exception, the head record's cumulative `bytes` metadata
grows by exactly the sum of the delivered chunk lengths, and likewise
`addByteCount` runs add the sum of the delivered counts. -/
theorem c9_byte_accounting :
    (∀ (cs : List Bytes) (p p' : Pipeline),
        processChunks p cs = (p', none) →
        headBytes p' = headBytes p + (cs.map List.length).sum) ∧
    (∀ (ns : List Nat) (p p' : Pipeline),
        processCounts p ns = (p', none) →
        headBytes p' = headBytes p + ns.sum) :=
  ⟨processChunks_headBytes, processCounts_headBytes⟩

/-- C9 witness: two chunks of lengths 2 and 1 delivered to a record with
an active sink leave its byte counter at 0 + 3. -/
theorem c9_witness :
    headBytes (processChunks activeOne [[1, 2], [3]]).1 =
      headBytes activeOne + (([[1, 2], [3]] : List Bytes).map List.length).sum :=
  c9_byte_accounting.1 [[1, 2], [3]] activeOne (processChunks activeOne [[1, 2], [3]]).1
    (by decide)

/-- C10 (amended): for every non-negative configured `maxRequests`,
`scheduleSend` fails with the OVERFLOW condition exactly when
`acceptsMoreRequests()` returns `false` (for negative values the two
gates disagree, see the counterexample). -/
theorem c10_gates_agree_nonneg (p : Pipeline) (rq : Request) (cb now : Nat)
    (h : 0 ≤ p.maxRequests) :
    scheduleSend p rq cb now = .error (.pipelineError .overflow) ↔
      acceptsMoreRequests p = false := by
  unfold scheduleSend acceptsMoreRequests
  split
  next hc =>
    refine iff_of_true rfl ?_
    simp only [Bool.or_eq_false_iff, beq_eq_false_iff_ne, decide_eq_false_iff_not, not_lt]
    exact ⟨by omega, hc.2⟩
  next hc =>
    refine iff_of_false (by simp) ?_
    simp only [Bool.or_eq_false_iff, beq_eq_false_iff_ne, decide_eq_false_iff_not, not_lt]
    omega

/-- C10 witness: on a full pipeline (`maxRequests = 1`, one record) both
gates agree that admission is refused. -/
theorem c10_witness :
    scheduleSend fullOne {} 9 9 = .error (.pipelineError .overflow) ↔
      acceptsMoreRequests fullOne = false :=
  c10_gates_agree_nonneg fullOne {} 9 9 (by decide)

end UwsCompat
